import Mathlib

/-!
Shallow embedding of the home intrusion-alarm backend (`backend/server.py`).

The Mongo document store is modelled as a `Store` record of lists / optional
singletons; timestamps are `Nat` instants; fresh uuids come from an opaque
generator `Env.uuid` indexed by a counter held in the store.  The Twilio
gateway is modelled by two environment booleans (`twilioConfigured`: both
credentials and the sending phone number are set; `providerOk`: whether
`messages.create` succeeds) plus a ghost list `Store.dispatches` recording
every provider call `(to, body)` and a ghost counter `Store.smsCalls`
recording every invocation of the gateway wrapper `send_sms_alert`.
-/

inductive Mode where
  | armed
  | disarmed
  | monitoring
deriving DecidableEq, Repr

inductive Severity where
  | info
  | warning
  | danger
deriving DecidableEq, Repr

inductive SensorType where
  | motion
  | door
  | window
deriving DecidableEq, Repr

inductive SensorStatus where
  | active
  | inactive
  | triggered
  | offline
deriving DecidableEq, Repr

/-- The closed `Literal` enum on `Event.type` in `server.py`. -/
inductive EventType where
  | intrusion
  | armed
  | disarmed
  | monitor_start
  | monitor_stop
  | sensor_triggered
  | sensor_added
  | sensor_removed
  | zone_added
  | zone_removed
  | sms_sent
  | system
deriving DecidableEq, Repr

structure Zone where
  id : String
  name : String
  description : String
  image_url : String
  created_at : Nat
deriving DecidableEq, Repr

structure Sensor where
  id : String
  name : String
  type : SensorType
  zone_id : String
  status : SensorStatus
  battery_level : Int
  last_triggered : Option Nat
  created_at : Nat
deriving DecidableEq, Repr

structure Event where
  id : String
  type : EventType
  message : String
  severity : Severity
  sensor_id : Option String
  zone_id : Option String
  timestamp : Nat
deriving DecidableEq, Repr

/-- Singleton document with fixed id "system_state". -/
structure SystemState where
  mode : Mode
  updated_at : Nat
deriving DecidableEq, Repr

/-- Singleton document with fixed id "settings". -/
structure Settings where
  sms_enabled : Bool
  alert_phone_number : Option String
  updated_at : Nat
deriving DecidableEq, Repr

structure ZoneUpdate where
  name : Option String
  description : Option String
  image_url : Option String
deriving DecidableEq, Repr

structure SensorUpdate where
  name : Option String
  zone_id : Option String
  status : Option SensorStatus
  battery_level : Option Int
deriving DecidableEq, Repr

structure SettingsUpdate where
  sms_enabled : Option Bool
  alert_phone_number : Option String
deriving DecidableEq, Repr

/-- The document store plus ghost instrumentation of the notification
gateway (`dispatches` records provider calls, `smsCalls` counts
`send_sms_alert` invocations). -/
structure Store where
  zones : List Zone
  sensors : List Sensor
  events : List Event
  system_state : Option SystemState
  settings : Option Settings
  uuidCount : Nat
  dispatches : List (String × String)
  smsCalls : Nat
deriving DecidableEq, Repr

/-- Process environment: fresh-uuid source and Twilio configuration
(`twilioConfigured` models `twilio_client and twilio_phone_number`,
`providerOk` models whether `messages.create` raises). -/
structure Env where
  uuid : Nat → String
  twilioConfigured : Bool
  providerOk : Bool

/-- Python truthiness of an optional string field: a missing value and the
empty string are both falsy (the code tests falsiness of the phone-number
field read from the settings document). -/
def truthyStr : Option String → Bool
  | none => false
  | some s => s ≠ ""

/-- Mongo `update_one`: patch the FIRST document matching the filter, and
report `matched_count` (0 or 1). -/
def updateFirstCount (p : α → Bool) (f : α → α) : List α → Nat × List α
  | [] => (0, [])
  | x :: xs =>
    if p x then (1, f x :: xs)
    else
      let r := updateFirstCount p f xs
      (r.1, x :: r.2)

/-- Mongo `delete_one`: remove the first document matching the filter. -/
def removeFirst (p : α → Bool) : List α → List α
  | [] => []
  | x :: xs => if p x then xs else x :: removeFirst p xs

/-- Helper `log_event`: build an `Event` with a fresh id and the current
timestamp and insert it into the events collection. -/
def log_event (env : Env) (now : Nat) (etype : EventType) (message : String)
    (severity : Severity) (sensor_id : Option String) (zone_id : Option String)
    (st : Store) : Event × Store :=
  let e : Event :=
    { id := env.uuid st.uuidCount, type := etype, message := message,
      severity := severity, sensor_id := sensor_id, zone_id := zone_id,
      timestamp := now }
  (e, { st with events := st.events ++ [e], uuidCount := st.uuidCount + 1 })

/-- Gateway wrapper `send_sms_alert`: guard on settings, then on Twilio
configuration, then attempt the provider call; a provider exception is
caught and yields `false`.  The ghost `smsCalls` counter is bumped on
entry. -/
def send_sms_alert (env : Env) (now : Nat) (message : String) (st0 : Store) :
    Bool × Store :=
  let st := { st0 with smsCalls := st0.smsCalls + 1 }
  match st.settings with
  | none => (false, st)
  | some settings =>
    if ¬ settings.sms_enabled ∨ ¬ truthyStr settings.alert_phone_number then
      (false, st)
    else if ¬ env.twilioConfigured then
      (false, st)
    else
      let toNum := settings.alert_phone_number.getD ""
      let st := { st with dispatches := st.dispatches ++ [(toNum, message)] }
      if env.providerOk then
        let r := log_event env now EventType.sms_sent
          ("SMS alert sent: " ++ message) Severity.info none none st
        (true, r.2)
      else
        (false, st)

/-- Helper `get_system_state`: return the persisted singleton, lazily
inserting the default (mode disarmed) when absent. -/
def get_system_state (now : Nat) (st : Store) : SystemState × Store :=
  match st.system_state with
  | none =>
    let d : SystemState := { mode := Mode.disarmed, updated_at := now }
    (d, { st with system_state := some d })
  | some s => (s, st)

/-- The mode `get_system_state` would report on `st` (persisted mode, or the
lazily-created default "disarmed"). -/
def currentMode (st : Store) : Mode :=
  match st.system_state with
  | none => Mode.disarmed
  | some s => s.mode

/-- Endpoint PUT /system/state (`update_state`): full replace with upsert,
then log a transition event only when the mode actually changed. -/
def update_state (env : Env) (now : Nat) (new_mode : Mode) (st : Store) :
    SystemState × Store :=
  let r0 := get_system_state now st
  let old_mode := r0.1.mode
  let updated : SystemState := { mode := new_mode, updated_at := now }
  let st1 := { r0.2 with system_state := some updated }
  let st2 :=
    if old_mode ≠ new_mode then
      match new_mode with
      | Mode.armed =>
        (log_event env now EventType.armed "System armed" Severity.warning
          none none st1).2
      | Mode.disarmed =>
        (log_event env now EventType.disarmed "System disarmed" Severity.info
          none none st1).2
      | Mode.monitoring =>
        (log_event env now EventType.monitor_start "Monitoring mode enabled"
          Severity.info none none st1).2
    else st1
  (updated, st2)

/-- Python capitalize applied to the three sensor type names. -/
def capitalizedType : SensorType → String
  | SensorType.motion => "Motion"
  | SensorType.door => "Door"
  | SensorType.window => "Window"

/-- The response body of `POST /sensors/trigger`. -/
structure TriggerResult where
  alert : Bool
  message : String
  severity : Severity
deriving DecidableEq, Repr

/-- Endpoint POST /sensors/trigger (`trigger_sensor`): look up the sensor
(404 when absent), resolve the zone name (placeholder when the zone is
gone), unconditionally mark the sensor triggered, then branch on the system
mode. -/
def trigger_sensor (env : Env) (now : Nat) (sensor_id : String) (st : Store) :
    Except String (TriggerResult × Store) :=
  match st.sensors.find? (fun s => s.id = sensor_id) with
  | none => Except.error "Sensor not found"
  | some sensor =>
    let zone_name :=
      match st.zones.find? (fun z => z.id = sensor.zone_id) with
      | some z => z.name
      | none => "Unknown Zone"
    let st1 := { st with sensors :=
      (updateFirstCount (fun s => s.id = sensor_id)
        (fun s => { s with status := SensorStatus.triggered,
                           last_triggered := some now }) st.sensors).2 }
    let r1 := get_system_state now st1
    let state := r1.1
    let st2 := r1.2
    let sensor_type_label :=
      if sensor.type = SensorType.motion then "Motion detected"
      else capitalizedType sensor.type ++ " opened"
    let message := sensor_type_label ++ " - " ++ sensor.name ++ " in " ++ zone_name
    match state.mode with
    | Mode.armed =>
      let st3 := (log_event env now EventType.intrusion
        ("🚨 INTRUSION DETECTED: " ++ message) Severity.danger
        (some sensor_id) (some sensor.zone_id) st2).2
      let st4 := (send_sms_alert env now ("🚨 SECURITY ALERT: " ++ message) st3).2
      Except.ok ({ alert := true, message := "INTRUSION: " ++ message,
                   severity := Severity.danger }, st4)
    | Mode.monitoring =>
      let st3 := (log_event env now EventType.sensor_triggered
        ("Movement detected: " ++ message) Severity.warning
        (some sensor_id) (some sensor.zone_id) st2).2
      Except.ok ({ alert := false, message := "Movement logged: " ++ message,
                   severity := Severity.warning }, st3)
    | Mode.disarmed =>
      let st3 := (log_event env now EventType.sensor_triggered
        ("Sensor triggered (system disarmed): " ++ message) Severity.info
        (some sensor_id) (some sensor.zone_id) st2).2
      Except.ok ({ alert := false, message := "Logged: " ++ message,
                   severity := Severity.info }, st3)

/-- Endpoint POST /sensors/:sensor_id/reset (`reset_sensor`): set the status
of the matched sensor to "active"; 404 when nothing matched.  No event is
logged. -/
def reset_sensor (sensor_id : String) (st : Store) :
    Except String (String × Store) :=
  let r := updateFirstCount (fun s => s.id = sensor_id)
    (fun s => { s with status := SensorStatus.active }) st.sensors
  if r.1 = 0 then Except.error "Sensor not found"
  else Except.ok ("Sensor reset", { st with sensors := r.2 })

/-- Endpoint DELETE /zones/:zone_id (`delete_zone`): 404 when the zone is
absent; otherwise delete all sensors of the zone, delete the zone, and log
one "zone_removed" event. -/
def delete_zone (env : Env) (now : Nat) (zone_id : String) (st : Store) :
    Except String (String × Store) :=
  match st.zones.find? (fun z => z.id = zone_id) with
  | none => Except.error "Zone not found"
  | some zone =>
    let kept := st.sensors.filter (fun s => !(s.zone_id == zone_id))
    let st1 := { st with sensors := kept }
    let st2 := { st1 with zones := removeFirst (fun z => z.id = zone_id) st1.zones }
    let st3 := (log_event env now EventType.zone_removed
      ("Zone \x27" ++ zone.name ++ "\x27 removed") Severity.info
      none (some zone_id) st2).2
    Except.ok ("Zone deleted", st3)

def ZoneUpdate.isEmpty (u : ZoneUpdate) : Bool :=
  u.name.isNone && u.description.isNone && u.image_url.isNone

/-- Application of the Mongo set-patch built from the non-null fields of a
`ZoneUpdate`. -/
def applyZoneUpdate (u : ZoneUpdate) (z : Zone) : Zone :=
  { z with name := u.name.getD z.name,
           description := u.description.getD z.description,
           image_url := u.image_url.getD z.image_url }

/-- Endpoint PUT /zones/:zone_id (`update_zone`): reject an all-null patch
before touching storage, apply the non-null fields to the matched zone
(404 when none), then read the zone back. -/
def update_zone (u : ZoneUpdate) (zone_id : String) (st : Store) :
    Except String (Zone × Store) :=
  if u.isEmpty then Except.error "No update data provided"
  else
    let r := updateFirstCount (fun z => z.id = zone_id) (applyZoneUpdate u) st.zones
    if r.1 = 0 then Except.error "Zone not found"
    else
      match r.2.find? (fun z => z.id = zone_id) with
      | some zone => Except.ok (zone, { st with zones := r.2 })
      | none => Except.error "Zone not found"

def SensorUpdate.isEmpty (u : SensorUpdate) : Bool :=
  u.name.isNone && u.zone_id.isNone && u.status.isNone && u.battery_level.isNone

/-- Application of the Mongo set-patch built from the non-null fields of a
`SensorUpdate`. -/
def applySensorUpdate (u : SensorUpdate) (s : Sensor) : Sensor :=
  { s with name := u.name.getD s.name,
           zone_id := u.zone_id.getD s.zone_id,
           status := u.status.getD s.status,
           battery_level := u.battery_level.getD s.battery_level }

/-- Endpoint PUT /sensors/:sensor_id (`update_sensor`): reject an all-null
patch before touching storage, apply the non-null fields to the matched
sensor (404 when none), then read the sensor back. -/
def update_sensor (u : SensorUpdate) (sensor_id : String) (st : Store) :
    Except String (Sensor × Store) :=
  if u.isEmpty then Except.error "No update data provided"
  else
    let r := updateFirstCount (fun s => s.id = sensor_id) (applySensorUpdate u) st.sensors
    if r.1 = 0 then Except.error "Sensor not found"
    else
      match r.2.find? (fun s => s.id = sensor_id) with
      | some sensor => Except.ok (sensor, { st with sensors := r.2 })
      | none => Except.error "Sensor not found"

/-- Endpoint GET /settings (`get_settings`): return the persisted singleton,
lazily inserting the default (sms disabled, no phone number) when absent. -/
def get_settings (now : Nat) (st : Store) : Settings × Store :=
  match st.settings with
  | none =>
    let d : Settings := { sms_enabled := false, alert_phone_number := none,
                          updated_at := now }
    (d, { st with settings := some d })
  | some s => (s, st)

/-- Endpoint PUT /settings (`update_settings`): set the non-null fields plus
a fresh `updated_at`, with upsert — there is no empty-payload rejection.  A
field absent from the upserted document reads back as its pydantic default
(sms disabled, no phone number), which the model folds into the stored
value. -/
def update_settings (now : Nat) (u : SettingsUpdate) (st : Store) :
    Settings × Store :=
  let s : Settings :=
    match st.settings with
    | some prev =>
      { sms_enabled := u.sms_enabled.getD prev.sms_enabled,
        alert_phone_number :=
          match u.alert_phone_number with
          | some p => some p
          | none => prev.alert_phone_number,
        updated_at := now }
    | none =>
      { sms_enabled := u.sms_enabled.getD false,
        alert_phone_number := u.alert_phone_number,
        updated_at := now }
  (s, { st with settings := some s })

/-- Endpoint DELETE /events (`clear_events`): delete the whole collection,
then log one "system" event recording the clear. -/
def clear_events (env : Env) (now : Nat) (st : Store) : String × Store :=
  let st1 := { st with events := [] }
  let st2 := (log_event env now EventType.system "Activity log cleared"
    Severity.info none none st1).2
  ("Events cleared", st2)


/-- Predicate `smsReady`: the negation of the settings guard in
`send_sms_alert` — the settings document exists, sms is enabled and the
phone number is truthy. -/
def smsReady (st : Store) : Bool :=
  match st.settings with
  | none => false
  | some s => s.sms_enabled && truthyStr s.alert_phone_number

def envW : Env :=
  { uuid := fun n => "uuid-" ++ toString n, twilioConfigured := true,
    providerOk := true }

def zoneW : Zone :=
  { id := "z1", name := "Hall", description := "", image_url := "",
    created_at := 0 }

def sensorW : Sensor :=
  { id := "s1", name := "Front", type := SensorType.motion, zone_id := "z1",
    status := SensorStatus.active, battery_level := 100,
    last_triggered := none, created_at := 0 }

def settingsW : Settings :=
  { sms_enabled := true, alert_phone_number := some "+15550100",
    updated_at := 0 }

def storeW : Store :=
  { zones := [zoneW], sensors := [sensorW], events := [],
    system_state := some { mode := Mode.armed, updated_at := 0 },
    settings := some settingsW, uuidCount := 0, dispatches := [], smsCalls := 0 }

def emptyStoreW : Store :=
  { zones := [], sensors := [], events := [], system_state := none,
    settings := none, uuidCount := 0, dispatches := [], smsCalls := 0 }

def settingsW4 : Settings :=
  { sms_enabled := false, alert_phone_number := none, updated_at := 0 }

def storeW4 : Store :=
  { zones := [], sensors := [], events := [], system_state := none,
    settings := some settingsW4, uuidCount := 0, dispatches := [], smsCalls := 0 }

/-! ### Helper lemmas -/

theorem updateFirstCount_fst_eq_one {α} (p : α → Bool) (f : α → α)
    (l : List α) (a : α) (h : l.find? p = some a) :
    (updateFirstCount p f l).1 = 1 := by
  induction l with
  | nil => simp [List.find?] at h
  | cons x xs ih =>
    by_cases hpx : p x
    · simp [updateFirstCount, hpx]
    · simp only [List.find?_cons_of_neg _ hpx] at h
      simp [updateFirstCount, hpx, ih h]

theorem updateFirstCount_eq_self {α} (p : α → Bool) (f : α → α)
    (l : List α) (a : α) (h : l.find? p = some a) (hfa : f a = a) :
    (updateFirstCount p f l).2 = l := by
  induction l with
  | nil => simp [List.find?] at h
  | cons x xs ih =>
    by_cases hpx : p x
    · simp only [List.find?_cons_of_pos _ hpx, Option.some.injEq] at h
      subst h
      simp [updateFirstCount, hpx, hfa]
    · simp only [List.find?_cons_of_neg _ hpx] at h
      simp [updateFirstCount, hpx, ih h]

theorem find?_updateFirstCount {α} (p : α → Bool) (f : α → α)
    (l : List α) (a : α) (h : l.find? p = some a)
    (hpf : ∀ x, p x = true → p (f x) = true) :
    (updateFirstCount p f l).2.find? p = some (f a) := by
  induction l with
  | nil => simp [List.find?] at h
  | cons x xs ih =>
    by_cases hpx : p x
    · simp only [List.find?_cons_of_pos _ hpx, Option.some.injEq] at h
      subst h
      simp [updateFirstCount, hpx, List.find?_cons_of_pos _ (hpf _ hpx)]
    · simp only [List.find?_cons_of_neg _ hpx] at h
      simp [updateFirstCount, hpx, List.find?_cons_of_neg _ hpx, ih h]

theorem send_sms_alert_store (env : Env) (now : Nat) (m : String) (st : Store) :
    (send_sms_alert env now m st).2.zones = st.zones ∧
    (send_sms_alert env now m st).2.sensors = st.sensors ∧
    (send_sms_alert env now m st).2.system_state = st.system_state ∧
    (send_sms_alert env now m st).2.settings = st.settings ∧
    (send_sms_alert env now m st).2.smsCalls = st.smsCalls + 1 ∧
    ((send_sms_alert env now m st).2.events = st.events ∨
      ∃ e, (send_sms_alert env now m st).2.events = st.events ++ [e] ∧
        e.type = EventType.sms_sent) := by
  unfold send_sms_alert
  cases hset : st.settings with
  | none => simp
  | some s =>
    cases hse : s.sms_enabled <;> cases htr : truthyStr s.alert_phone_number <;>
      cases htc : env.twilioConfigured <;> cases hpo : env.providerOk <;>
        simp [hset, hse, htr, htc, hpo, log_event]

theorem get_system_state_fst (now : Nat) (st : Store) :
    (get_system_state now st).1.mode = currentMode st := by
  unfold get_system_state currentMode
  cases st.system_state <;> simp

theorem get_system_state_store (now : Nat) (st : Store) :
    (get_system_state now st).2.zones = st.zones ∧
    (get_system_state now st).2.sensors = st.sensors ∧
    (get_system_state now st).2.events = st.events ∧
    (get_system_state now st).2.settings = st.settings ∧
    (get_system_state now st).2.uuidCount = st.uuidCount ∧
    (get_system_state now st).2.dispatches = st.dispatches ∧
    (get_system_state now st).2.smsCalls = st.smsCalls := by
  unfold get_system_state
  cases st.system_state <;> simp

theorem send_sms_alert_sensors (env : Env) (now : Nat) (m : String) (st : Store) :
    (send_sms_alert env now m st).2.sensors = st.sensors :=
  (send_sms_alert_store env now m st).2.1

theorem send_sms_alert_smsCalls (env : Env) (now : Nat) (m : String) (st : Store) :
    (send_sms_alert env now m st).2.smsCalls = st.smsCalls + 1 :=
  (send_sms_alert_store env now m st).2.2.2.2.1

theorem send_sms_alert_eq_noop (env : Env) (now : Nat) (m : String) (st : Store)
    (h : smsReady st = false ∨ env.twilioConfigured = false) :
    send_sms_alert env now m st = (false, { st with smsCalls := st.smsCalls + 1 }) := by
  cases hset : st.settings with
  | none => simp [send_sms_alert, hset]
  | some s =>
    cases hse : s.sms_enabled <;> cases htr : truthyStr s.alert_phone_number <;>
      cases htc : env.twilioConfigured <;>
        simp_all [send_sms_alert, smsReady, hset]

theorem send_sms_alert_eq_ok (env : Env) (now : Nat) (m : String) (st : Store)
    (s : Settings) (hset : st.settings = some s) (hr : smsReady st = true)
    (htc : env.twilioConfigured = true) (hpo : env.providerOk = true) :
    send_sms_alert env now m st =
      (true,
        { st with
          dispatches := st.dispatches ++ [(s.alert_phone_number.getD "", m)],
          events := st.events ++
            [{ id := env.uuid st.uuidCount, type := EventType.sms_sent,
               message := "SMS alert sent: " ++ m, severity := Severity.info,
               sensor_id := none, zone_id := none, timestamp := now }],
          uuidCount := st.uuidCount + 1,
          smsCalls := st.smsCalls + 1 }) := by
  have h1 : s.sms_enabled = true ∧ truthyStr s.alert_phone_number = true := by
    simp only [smsReady, hset, Bool.and_eq_true] at hr
    exact hr
  simp [send_sms_alert, hset, h1.1, h1.2, htc, hpo, log_event]

theorem send_sms_alert_eq_fail (env : Env) (now : Nat) (m : String) (st : Store)
    (s : Settings) (hset : st.settings = some s) (hr : smsReady st = true)
    (htc : env.twilioConfigured = true) (hpo : env.providerOk = false) :
    send_sms_alert env now m st =
      (false,
        { st with
          dispatches := st.dispatches ++ [(s.alert_phone_number.getD "", m)],
          smsCalls := st.smsCalls + 1 }) := by
  have h1 : s.sms_enabled = true ∧ truthyStr s.alert_phone_number = true := by
    simp only [smsReady, hset, Bool.and_eq_true] at hr
    exact hr
  simp [send_sms_alert, hset, h1.1, h1.2, htc, hpo]

theorem send_sms_alert_countP_intrusion (env : Env) (now : Nat) (m : String)
    (st : Store) :
    (send_sms_alert env now m st).2.events.countP
      (fun e => e.type == EventType.intrusion) =
    st.events.countP (fun e => e.type == EventType.intrusion) := by
  rcases (send_sms_alert_store env now m st).2.2.2.2.2 with h | ⟨e, h, he⟩
  · rw [h]
  · rw [h, List.countP_append]
    simp [List.countP_cons, he]

theorem events_cons_extract (l0 l1 : List Event) (e : Event) (P : Event → Prop)
    (h : l1 = l0 ++ [e]) (hP : P e) :
    ∃ e0 rest, l1 = l0 ++ e0 :: rest ∧ P e0 :=
  ⟨e, [], h, hP⟩

theorem events_cons_extract2 (l0 l1 : List Event) (e e2 : Event) (P : Event → Prop)
    (h : l1 = (l0 ++ [e]) ++ [e2]) (hP : P e) :
    ∃ e0 rest, l1 = l0 ++ e0 :: rest ∧ P e0 :=
  ⟨e, [e2], by rw [h]; simp, hP⟩

theorem length_filter_neg {α} (p : α → Bool) (l : List α) :
    (l.filter (fun a => !(p a))).length = l.length - l.countP p := by
  induction l with
  | nil => simp
  | cons x xs ih =>
    have hle : xs.countP p ≤ xs.length := List.countP_le_length p
    cases hpx : p x
    · simp [List.filter_cons, hpx, List.countP_cons, ih]
      omega
    · simp [List.filter_cons, hpx, List.countP_cons, ih]

/-! ### Claims -/

/-- Claim C1: for every existing sensor, the trigger handler returns a result
determined by the current system mode (armed: alert true and severity danger;
monitoring: alert false and severity warning; disarmed: alert false and
severity info), and the event it logs first is of type intrusion with
severity danger when armed, and of type sensor_triggered with severity
warning (monitoring) or info (disarmed) otherwise. -/
theorem trigger_sensor_mode_outcome (env : Env) (now : Nat) (sid : String)
    (st : Store) (sensor : Sensor)
    (hs : st.sensors.find? (fun s => s.id = sid) = some sensor) :
    ∃ (r : TriggerResult) (st' : Store),
      trigger_sensor env now sid st = Except.ok (r, st') ∧
      ∃ (e : Event) (rest : List Event),
        st'.events = st.events ++ e :: rest ∧
        ((currentMode st = Mode.armed ∧ r.alert = true ∧ r.severity = Severity.danger ∧
           e.type = EventType.intrusion ∧ e.severity = Severity.danger) ∨
         (currentMode st = Mode.monitoring ∧ r.alert = false ∧
           r.severity = Severity.warning ∧
           e.type = EventType.sensor_triggered ∧ e.severity = Severity.warning) ∨
         (currentMode st = Mode.disarmed ∧ r.alert = false ∧ r.severity = Severity.info ∧
           e.type = EventType.sensor_triggered ∧ e.severity = Severity.info)) := by
  cases hss : st.system_state with
  | none =>
    simp only [trigger_sensor, hs, hss, get_system_state, log_event]
    refine ⟨_, _, rfl, ?_⟩
    exact events_cons_extract _ _ _ _ rfl (by simp [currentMode, hss])
  | some ss =>
    cases hm : ss.mode
    case disarmed =>
      simp only [trigger_sensor, hs, hss, hm, get_system_state, log_event]
      refine ⟨_, _, rfl, ?_⟩
      exact events_cons_extract _ _ _ _ rfl (by simp [currentMode, hss, hm])
    case monitoring =>
      simp only [trigger_sensor, hs, hss, hm, get_system_state, log_event]
      refine ⟨_, _, rfl, ?_⟩
      exact events_cons_extract _ _ _ _ rfl (by simp [currentMode, hss, hm])
    case armed =>
      simp only [trigger_sensor, hs, hss, hm, get_system_state, log_event]
      cases hr : smsReady st with
      | false =>
        rw [send_sms_alert_eq_noop]
        · refine ⟨_, _, rfl, ?_⟩
          exact events_cons_extract _ _ _ _ rfl (by simp [currentMode, hss, hm])
        · exact Or.inl hr
      | true =>
        cases hset : st.settings with
        | none => simp [smsReady, hset] at hr
        | some s =>
          cases htc : env.twilioConfigured with
          | false =>
            rw [send_sms_alert_eq_noop]
            · refine ⟨_, _, rfl, ?_⟩
              exact events_cons_extract _ _ _ _ rfl (by simp [currentMode, hss, hm])
            · exact Or.inr htc
          | true =>
            cases hpo : env.providerOk with
            | true =>
              rw [send_sms_alert_eq_ok _ _ _ _ s]
              · refine ⟨_, _, rfl, ?_⟩
                exact events_cons_extract2 _ _ _ _ _ rfl
                  (by simp [currentMode, hss, hm])
              · rfl
              · simpa [smsReady, hset] using hr
              · exact htc
              · exact hpo
            | false =>
              rw [send_sms_alert_eq_fail _ _ _ _ s]
              · refine ⟨_, _, rfl, ?_⟩
                exact events_cons_extract _ _ _ _ rfl (by simp [currentMode, hss, hm])
              · rfl
              · simpa [smsReady, hset] using hr
              · exact htc
              · exact hpo

/-- Concrete witness for Claim C1. -/
theorem trigger_sensor_mode_outcome_witness :
    ∃ (r : TriggerResult) (st' : Store),
      trigger_sensor envW 7 "s1" storeW = Except.ok (r, st') ∧
      ∃ (e : Event) (rest : List Event),
        st'.events = storeW.events ++ e :: rest ∧
        ((currentMode storeW = Mode.armed ∧ r.alert = true ∧
           r.severity = Severity.danger ∧
           e.type = EventType.intrusion ∧ e.severity = Severity.danger) ∨
         (currentMode storeW = Mode.monitoring ∧ r.alert = false ∧
           r.severity = Severity.warning ∧
           e.type = EventType.sensor_triggered ∧ e.severity = Severity.warning) ∨
         (currentMode storeW = Mode.disarmed ∧ r.alert = false ∧
           r.severity = Severity.info ∧
           e.type = EventType.sensor_triggered ∧ e.severity = Severity.info)) :=
  trigger_sensor_mode_outcome envW 7 "s1" storeW sensorW (by rfl)

/-- Claim C2: for every existing sensor, triggering while armed appends
exactly one event of type intrusion and invokes the notification gateway
wrapper exactly once; triggering in monitoring or disarmed mode never
invokes the wrapper and performs no provider dispatch. -/
theorem trigger_sensor_notification_counts (env : Env) (now : Nat) (sid : String)
    (st : Store) (sensor : Sensor)
    (hs : st.sensors.find? (fun s => s.id = sid) = some sensor) :
    ∃ r st',
      trigger_sensor env now sid st = Except.ok (r, st') ∧
      (currentMode st = Mode.armed →
        st'.events.countP (fun e => e.type == EventType.intrusion) =
          st.events.countP (fun e => e.type == EventType.intrusion) + 1 ∧
        st'.smsCalls = st.smsCalls + 1) ∧
      (currentMode st ≠ Mode.armed →
        st'.smsCalls = st.smsCalls ∧ st'.dispatches = st.dispatches) := by
  cases hss : st.system_state with
  | none =>
    simp only [trigger_sensor, hs, hss, get_system_state, log_event]
    refine ⟨_, _, rfl, ?_, ?_⟩
    · intro h
      simp [currentMode, hss] at h
    · intro _
      exact ⟨rfl, rfl⟩
  | some ss =>
    cases hm : ss.mode
    case disarmed =>
      simp only [trigger_sensor, hs, hss, hm, get_system_state, log_event]
      refine ⟨_, _, rfl, ?_, ?_⟩
      · intro h
        simp [currentMode, hss, hm] at h
      · intro _
        exact ⟨rfl, rfl⟩
    case monitoring =>
      simp only [trigger_sensor, hs, hss, hm, get_system_state, log_event]
      refine ⟨_, _, rfl, ?_, ?_⟩
      · intro h
        simp [currentMode, hss, hm] at h
      · intro _
        exact ⟨rfl, rfl⟩
    case armed =>
      simp only [trigger_sensor, hs, hss, hm, get_system_state, log_event]
      refine ⟨_, _, rfl, ?_, ?_⟩
      · intro _
        rw [send_sms_alert_countP_intrusion, send_sms_alert_smsCalls]
        constructor
        · simp [List.countP_append]
        · rfl
      · intro h
        exact (h (by simp [currentMode, hss, hm])).elim

/-- Concrete witness for Claim C2. -/
theorem trigger_sensor_notification_counts_witness :
    ∃ r st',
      trigger_sensor envW 7 "s1" storeW = Except.ok (r, st') ∧
      (currentMode storeW = Mode.armed →
        st'.events.countP (fun e => e.type == EventType.intrusion) =
          storeW.events.countP (fun e => e.type == EventType.intrusion) + 1 ∧
        st'.smsCalls = storeW.smsCalls + 1) ∧
      (currentMode storeW ≠ Mode.armed →
        st'.smsCalls = storeW.smsCalls ∧ st'.dispatches = storeW.dispatches) :=
  trigger_sensor_notification_counts envW 7 "s1" storeW sensorW (by rfl)

/-- Claim C3: for every existing sensor and any system mode, the trigger
handler sets the sensor status to triggered and stamps last_triggered with
the current time, unconditionally. -/
theorem trigger_sensor_sets_status (env : Env) (now : Nat) (sid : String)
    (st : Store) (sensor : Sensor)
    (hs : st.sensors.find? (fun s => s.id = sid) = some sensor) :
    ∃ r st', trigger_sensor env now sid st = Except.ok (r, st') ∧
      st'.sensors.find? (fun s => s.id = sid) =
        some { sensor with status := SensorStatus.triggered,
                           last_triggered := some now } := by
  have h1 := find?_updateFirstCount (fun s : Sensor => s.id = sid)
    (fun s : Sensor => { s with status := SensorStatus.triggered,
                                last_triggered := some now })
    st.sensors sensor hs (by intro x hx; simpa using hx)
  cases hss : st.system_state with
  | none =>
    simp only [trigger_sensor, hs, hss, get_system_state, log_event]
    refine ⟨_, _, rfl, ?_⟩
    simpa using h1
  | some ss =>
    cases hm : ss.mode
    case armed =>
      simp only [trigger_sensor, hs, hss, hm, get_system_state, log_event]
      refine ⟨_, _, rfl, ?_⟩
      simpa [send_sms_alert_sensors] using h1
    case disarmed =>
      simp only [trigger_sensor, hs, hss, hm, get_system_state, log_event]
      refine ⟨_, _, rfl, ?_⟩
      simpa using h1
    case monitoring =>
      simp only [trigger_sensor, hs, hss, hm, get_system_state, log_event]
      refine ⟨_, _, rfl, ?_⟩
      simpa using h1

/-- Concrete witness for Claim C3. -/
theorem trigger_sensor_sets_status_witness :
    ∃ r st', trigger_sensor envW 7 "s1" storeW = Except.ok (r, st') ∧
      st'.sensors.find? (fun s => s.id = "s1") =
        some { sensorW with status := SensorStatus.triggered,
                            last_triggered := some 7 } :=
  trigger_sensor_sets_status envW 7 "s1" storeW sensorW (by rfl)

/-- Claim C4 counterexample: the settings update endpoint does not reject an
all-null payload with a NoData error; it performs a storage mutation
(refreshing updated_at) even when every supplied field is null. -/
theorem update_settings_empty_payload_mutates :
    (update_settings 5 { sms_enabled := none, alert_phone_number := none } storeW4).2 ≠
      storeW4 ∧
    (update_settings 5 { sms_enabled := none, alert_phone_number := none } storeW4).2.settings =
      some { sms_enabled := false, alert_phone_number := none, updated_at := 5 } := by
  refine ⟨?_, ?_⟩ <;> decide

/-- Claim C4 (amended): the zone and sensor update endpoints reject an
all-null payload with a NoData client error before any storage mutation and
apply only the non-null supplied fields on non-empty updates; the settings
update endpoint never rejects: it always writes, refreshing updated_at and
applying exactly the non-null supplied fields. -/
theorem update_endpoints_empty_payload (uz : ZoneUpdate) (us : SensorUpdate)
    (ut : SettingsUpdate) (uz2 : ZoneUpdate) (us2 : SensorUpdate)
    (zid sid : String) (now : Nat) (st : Store)
    (prev : Settings) (zone : Zone) (sensor : Sensor)
    (hz : uz.isEmpty = true) (hs : us.isEmpty = true)
    (hset : st.settings = some prev)
    (hz2 : uz2.isEmpty = false) (hs2 : us2.isEmpty = false)
    (hzfind : st.zones.find? (fun z => z.id = zid) = some zone)
    (hsfind : st.sensors.find? (fun s => s.id = sid) = some sensor) :
    update_zone uz zid st = Except.error "No update data provided" ∧
    update_sensor us sid st = Except.error "No update data provided" ∧
    update_zone uz2 zid st =
      Except.ok (applyZoneUpdate uz2 zone,
        { st with zones :=
          (updateFirstCount (fun z => z.id = zid) (applyZoneUpdate uz2) st.zones).2 }) ∧
    update_sensor us2 sid st =
      Except.ok (applySensorUpdate us2 sensor,
        { st with sensors :=
          (updateFirstCount (fun s => s.id = sid) (applySensorUpdate us2) st.sensors).2 }) ∧
    (update_settings now ut st).1.updated_at = now ∧
    (ut.sms_enabled = none →
      (update_settings now ut st).1.sms_enabled = prev.sms_enabled) ∧
    (∀ b, ut.sms_enabled = some b → (update_settings now ut st).1.sms_enabled = b) ∧
    (ut.alert_phone_number = none →
      (update_settings now ut st).1.alert_phone_number = prev.alert_phone_number) ∧
    (∀ p, ut.alert_phone_number = some p →
      (update_settings now ut st).1.alert_phone_number = some p) ∧
    (update_settings now ut st).2 =
      { st with settings := some (update_settings now ut st).1 } := by
  refine ⟨?_, ?_, ?_, ?_, ?_, ?_, ?_, ?_, ?_, ?_⟩
  · unfold update_zone
    simp [hz]
  · unfold update_sensor
    simp [hs]
  · unfold update_zone
    simp only [hz2, updateFirstCount_fst_eq_one _ (applyZoneUpdate uz2) st.zones zone hzfind,
      find?_updateFirstCount _ (applyZoneUpdate uz2) st.zones zone hzfind
        (by intro x hx; simpa [applyZoneUpdate] using hx)]
    simp
  · unfold update_sensor
    simp only [hs2, updateFirstCount_fst_eq_one _ (applySensorUpdate us2) st.sensors sensor hsfind,
      find?_updateFirstCount _ (applySensorUpdate us2) st.sensors sensor hsfind
        (by intro x hx; simpa [applySensorUpdate] using hx)]
    simp
  · unfold update_settings
    simp [hset]
  · intro h
    unfold update_settings
    simp [hset, h]
  · intro b h
    unfold update_settings
    simp [hset, h]
  · intro h
    unfold update_settings
    simp [hset, h]
  · intro p h
    unfold update_settings
    simp [hset, h]
  · unfold update_settings
    simp [hset]

/-- Concrete witness for Claim C4 (amended). -/
theorem update_endpoints_empty_payload_witness :
    update_zone ⟨none, none, none⟩ "z1" storeW =
      Except.error "No update data provided" ∧
    update_sensor ⟨none, none, none, none⟩ "s1" storeW =
      Except.error "No update data provided" ∧
    update_zone ⟨some "Patio", none, none⟩ "z1" storeW =
      Except.ok (applyZoneUpdate ⟨some "Patio", none, none⟩ zoneW,
        { storeW with zones :=
          (updateFirstCount (fun z => z.id = "z1")
            (applyZoneUpdate ⟨some "Patio", none, none⟩) storeW.zones).2 }) ∧
    update_sensor ⟨some "Back", none, none, none⟩ "s1" storeW =
      Except.ok (applySensorUpdate ⟨some "Back", none, none, none⟩ sensorW,
        { storeW with sensors :=
          (updateFirstCount (fun s => s.id = "s1")
            (applySensorUpdate ⟨some "Back", none, none, none⟩) storeW.sensors).2 }) ∧
    (update_settings 9 ⟨none, none⟩ storeW).1.updated_at = 9 ∧
    ((⟨none, none⟩ : SettingsUpdate).sms_enabled = none →
      (update_settings 9 ⟨none, none⟩ storeW).1.sms_enabled =
        settingsW.sms_enabled) ∧
    (∀ b, (⟨none, none⟩ : SettingsUpdate).sms_enabled = some b →
      (update_settings 9 ⟨none, none⟩ storeW).1.sms_enabled = b) ∧
    ((⟨none, none⟩ : SettingsUpdate).alert_phone_number = none →
      (update_settings 9 ⟨none, none⟩ storeW).1.alert_phone_number =
        settingsW.alert_phone_number) ∧
    (∀ p, (⟨none, none⟩ : SettingsUpdate).alert_phone_number = some p →
      (update_settings 9 ⟨none, none⟩ storeW).1.alert_phone_number = some p) ∧
    (update_settings 9 ⟨none, none⟩ storeW).2 =
      { storeW with settings := some (update_settings 9 ⟨none, none⟩ storeW).1 } :=
  update_endpoints_empty_payload ⟨none, none, none⟩ ⟨none, none, none, none⟩
    ⟨none, none⟩ ⟨some "Patio", none, none⟩ ⟨some "Back", none, none, none⟩
    "z1" "s1" 9 storeW settingsW zoneW sensorW rfl rfl rfl rfl rfl (by rfl) (by rfl)

/-- Claim C5: set_state always overwrites the singleton mode and updated_at,
and appends an event exactly when the new mode differs from the previous
one, with armed mapping to severity warning and message "System armed",
disarmed to info "System disarmed", and monitoring to info "Monitoring mode
enabled". -/
theorem update_state_transition (env : Env) (now : Nat) (m : Mode) (st : Store) :
    (update_state env now m st).1 = { mode := m, updated_at := now } ∧
    (update_state env now m st).2.system_state = some { mode := m, updated_at := now } ∧
    (currentMode st = m → (update_state env now m st).2.events = st.events) ∧
    (currentMode st ≠ m →
      ∃ e, (update_state env now m st).2.events = st.events ++ [e] ∧
        ((m = Mode.armed ∧ e.severity = Severity.warning ∧ e.message = "System armed") ∨
         (m = Mode.disarmed ∧ e.severity = Severity.info ∧ e.message = "System disarmed") ∨
         (m = Mode.monitoring ∧ e.severity = Severity.info ∧
           e.message = "Monitoring mode enabled"))) := by
  unfold update_state get_system_state currentMode
  cases hss : st.system_state with
  | none => cases m <;> simp [log_event]
  | some ss => cases hm : ss.mode <;> cases m <;> simp [log_event, hm]

/-- Concrete witness for Claim C5. -/
theorem update_state_transition_witness :
    ∃ e, (update_state envW 5 Mode.monitoring storeW).2.events =
        storeW.events ++ [e] ∧
      ((Mode.monitoring = Mode.armed ∧ e.severity = Severity.warning ∧
         e.message = "System armed") ∨
       (Mode.monitoring = Mode.disarmed ∧ e.severity = Severity.info ∧
         e.message = "System disarmed") ∨
       (Mode.monitoring = Mode.monitoring ∧ e.severity = Severity.info ∧
         e.message = "Monitoring mode enabled")) :=
  (update_state_transition envW 5 Mode.monitoring storeW).2.2.2 (by decide)

/-- Claim C6: send_sms_alert returns false with no provider dispatch and no
event appended whenever SMS is disabled, no alert phone number is
configured, or the gateway credentials are unconfigured; on successful
provider dispatch it appends exactly one sms_sent event and returns true; a
provider error is absorbed and yields false. -/
theorem send_sms_alert_contract (env : Env) (now : Nat) (m : String) (st : Store) :
    ((smsReady st = false ∨ env.twilioConfigured = false) →
      (send_sms_alert env now m st).1 = false ∧
      (send_sms_alert env now m st).2.dispatches = st.dispatches ∧
      (send_sms_alert env now m st).2.events = st.events) ∧
    ((smsReady st = true ∧ env.twilioConfigured = true ∧ env.providerOk = true) →
      (send_sms_alert env now m st).1 = true ∧
      ∃ e, (send_sms_alert env now m st).2.events = st.events ++ [e] ∧
        e.type = EventType.sms_sent) ∧
    ((smsReady st = true ∧ env.twilioConfigured = true ∧ env.providerOk = false) →
      (send_sms_alert env now m st).1 = false ∧
      (send_sms_alert env now m st).2.events = st.events) := by
  unfold send_sms_alert smsReady
  cases hset : st.settings with
  | none => simp
  | some s =>
    cases hse : s.sms_enabled <;> cases htr : truthyStr s.alert_phone_number <;>
      cases htc : env.twilioConfigured <;> cases hpo : env.providerOk <;>
        simp [hse, htr, htc, hpo, log_event]

/-- Concrete witness for Claim C6. -/
theorem send_sms_alert_contract_witness :
    (send_sms_alert envW 4 "hi" storeW).1 = true ∧
    ∃ e, (send_sms_alert envW 4 "hi" storeW).2.events = storeW.events ++ [e] ∧
      e.type = EventType.sms_sent :=
  (send_sms_alert_contract envW 4 "hi" storeW).2.1 ⟨by decide, rfl, rfl⟩

/-- Claim C7: deleting an existing zone removes every sensor whose zone_id
matches it and the zone itself, and appends exactly one event, of type
zone_removed; the cascaded sensor deletions are not logged. -/
theorem delete_zone_cascades (env : Env) (now : Nat) (zid : String) (st : Store)
    (zone : Zone) (hz : st.zones.find? (fun z => z.id = zid) = some zone) :
    ∃ st', delete_zone env now zid st = Except.ok ("Zone deleted", st') ∧
      st'.sensors = st.sensors.filter (fun s => !(s.zone_id == zid)) ∧
      st'.sensors.countP (fun s => s.zone_id == zid) = 0 ∧
      st'.sensors.length = st.sensors.length - st.sensors.countP (fun s => s.zone_id == zid) ∧
      st'.zones = removeFirst (fun z => z.id = zid) st.zones ∧
      ∃ e, st'.events = st.events ++ [e] ∧ e.type = EventType.zone_removed := by
  unfold delete_zone
  rw [hz]
  refine ⟨_, rfl, rfl, ?_, ?_, rfl, _, rfl, rfl⟩
  · simp only [log_event]
    rw [List.countP_eq_zero]
    intro a ha
    have hmem := List.mem_filter.mp ha
    simpa using hmem.2
  · simp only [log_event]
    simpa using length_filter_neg (fun s => s.zone_id == zid) st.sensors

/-- Concrete witness for Claim C7. -/
theorem delete_zone_cascades_witness :
    ∃ st', delete_zone envW 3 "z1" storeW = Except.ok ("Zone deleted", st') ∧
      st'.sensors = storeW.sensors.filter (fun s => !(s.zone_id == "z1")) ∧
      st'.sensors.countP (fun s => s.zone_id == "z1") = 0 ∧
      st'.sensors.length =
        storeW.sensors.length - storeW.sensors.countP (fun s => s.zone_id == "z1") ∧
      st'.zones = removeFirst (fun z => z.id = "z1") storeW.zones ∧
      ∃ e, st'.events = storeW.events ++ [e] ∧ e.type = EventType.zone_removed :=
  delete_zone_cascades envW 3 "z1" storeW zoneW (by rfl)

/-- Claim C8: the bulk-clear operation empties the events collection and then
appends one system event recording the clear, so the event log holds exactly
that one event immediately after a clear completes. -/
theorem clear_events_appends_cleared (env : Env) (now : Nat) (st : Store) :
    ∃ e : Event, (clear_events env now st).2.events = [e] ∧
      e.type = EventType.system ∧ e.message = "Activity log cleared" ∧
      (clear_events env now st).2.events ≠ [] := by
  unfold clear_events log_event
  exact ⟨_, rfl, rfl, rfl, by simp⟩

/-- Claim C9: resetting an already-active sensor is idempotent: the store is
returned unchanged, so the status stays active and no event is appended. -/
theorem reset_sensor_idempotent (sid : String) (st : Store) (sensor : Sensor)
    (hfind : st.sensors.find? (fun s => s.id = sid) = some sensor)
    (hactive : sensor.status = SensorStatus.active) :
    reset_sensor sid st = Except.ok ("Sensor reset", st) := by
  have hfa : (fun s => { s with status := SensorStatus.active }) sensor = sensor := by
    cases sensor
    simp_all
  unfold reset_sensor
  simp only [updateFirstCount_fst_eq_one _
      (fun s => { s with status := SensorStatus.active }) st.sensors sensor hfind,
    updateFirstCount_eq_self _
      (fun s => { s with status := SensorStatus.active }) st.sensors sensor hfind hfa]
  simp

/-- Concrete witness for Claim C9. -/
theorem reset_sensor_idempotent_witness :
    reset_sensor "s1" storeW = Except.ok ("Sensor reset", storeW) :=
  reset_sensor_idempotent "s1" storeW sensorW (by rfl) (by rfl)

/-- Claim C10: on a store whose settings document was never written, the
lazily-created default has sms_enabled false and no phone number, and
send_sms_alert returns false with no provider dispatch and no event
appended, both before and after the lazy default is created. -/
theorem fresh_store_sms_noop (env : Env) (now now2 : Nat) (m : String) (st : Store)
    (h : st.settings = none) :
    (get_settings now st).1.sms_enabled = false ∧
    (get_settings now st).1.alert_phone_number = none ∧
    (send_sms_alert env now2 m st).1 = false ∧
    (send_sms_alert env now2 m st).2.dispatches = st.dispatches ∧
    (send_sms_alert env now2 m st).2.events = st.events ∧
    (send_sms_alert env now2 m (get_settings now st).2).1 = false ∧
    (send_sms_alert env now2 m (get_settings now st).2).2.dispatches = st.dispatches ∧
    (send_sms_alert env now2 m (get_settings now st).2).2.events = st.events := by
  unfold get_settings send_sms_alert
  simp [h, truthyStr]

/-- Concrete witness for Claim C10. -/
theorem fresh_store_sms_noop_witness :
    (get_settings 1 emptyStoreW).1.sms_enabled = false ∧
    (get_settings 1 emptyStoreW).1.alert_phone_number = none ∧
    (send_sms_alert envW 2 "hello" emptyStoreW).1 = false ∧
    (send_sms_alert envW 2 "hello" emptyStoreW).2.dispatches = emptyStoreW.dispatches ∧
    (send_sms_alert envW 2 "hello" emptyStoreW).2.events = emptyStoreW.events ∧
    (send_sms_alert envW 2 "hello" (get_settings 1 emptyStoreW).2).1 = false ∧
    (send_sms_alert envW 2 "hello" (get_settings 1 emptyStoreW).2).2.dispatches =
      emptyStoreW.dispatches ∧
    (send_sms_alert envW 2 "hello" (get_settings 1 emptyStoreW).2).2.events =
      emptyStoreW.events :=
  fresh_store_sms_noop envW 1 2 "hello" emptyStoreW rfl

